import Mathlib

/-!
Verification development for the ciqx build/run/watch orchestration engine
(src/ciqx.py). The Python code is shallowly embedded: external-process
outcomes (exit code, stderr, emitted lines) and filesystem facts (file
exists, event timestamps) are explicit inputs; a raised-and-uncaught Python
exception is an `Except.error` value; raised-and-caught exceptions are
handled by the corresponding `match`.
-/

namespace Ciqx

/-- Build profiles (class Profile, src/ciqx.py lines 46-49). -/
inductive Profile
  | debug
  | release
deriving DecidableEq, Repr

/-- The string value of a profile member (Profile is a str-Enum, so
`profile.value` is the lowercase member name). -/
def profileValue : Profile → String
  | Profile.debug => "debug"
  | Profile.release => "release"

/-- One message sent to the RichLogger (src/ciqx.py lines 117-133); the
constructor records which logger method was called. -/
inductive LogMsg
  | info (s : String)
  | error (s : String)
  | debug (s : String)
  | success (s : String)
deriving DecidableEq, Repr

/-- Outcome of one external-process invocation via subprocess.run:
the exit code and the captured standard-error text. -/
structure ProcResult where
  exitCode : Nat
  stderr : String
deriving DecidableEq, Repr

/-- Environment facts a GarminCompiler.compile call depends on:
`sdk_path` is `self.sdk_path` (None when SDK discovery failed),
`monkeyc_exists` is whether `sdk_path/bin/monkeyc` exists on disk,
`jungle_exists` is whether `Path("monkey.jungle").exists()`, and
`proc` is the outcome the external monkeyc process would produce. -/
structure CompileEnv where
  sdk_path : Option String
  monkeyc_exists : Bool
  jungle_exists : Bool
  proc : ProcResult
deriving DecidableEq, Repr

/-- The argument vector built by GarminCompiler.compile
(src/ciqx.py lines 175-198): jungle file takes precedence over the
manifest when it exists, then profile-specific flags are appended. -/
def buildCmd (monkeyc target : String) (profile : Profile)
    (manifest output dev_key : String) (jungle_exists : Bool) : List String :=
  let cmd :=
    if jungle_exists then
      [monkeyc, "-d", target, "-f", "monkey.jungle", "-o", output, "-y", dev_key]
    else
      [monkeyc, "-f", manifest, "-o", output, "-d", target, "-y", dev_key]
  if profile = Profile.debug then cmd ++ ["-g"]
  else if profile = Profile.release then cmd ++ ["-r"]
  else cmd

/-- subprocess.run(cmd, capture_output=True, text=True, check=True)
(src/ciqx.py line 203): exit code 0 returns normally, a non-zero exit
raises CalledProcessError carrying the captured stderr. -/
def runCheck (pr : ProcResult) : Except String Unit :=
  if pr.exitCode = 0 then Except.ok () else Except.error pr.stderr

/-- GarminCompiler.compile (src/ciqx.py lines 163-208): guards on the SDK
path and the monkeyc executable, builds the argument vector, runs the
external compiler, and turns a CalledProcessError into a `false` return
with an error log line (the try/except is the final `match`). Returns the
value delivered to the caller and the logger messages emitted. -/
def garminCompile (env : CompileEnv) (target : String) (profile : Profile)
    (manifest output dev_key : String) : Bool × List LogMsg :=
  match env.sdk_path with
  | none => (false, [LogMsg.error ("Garmin SDK not found")])
  | some sp =>
    if env.monkeyc_exists = false then
      (false, [LogMsg.error ("monkeyc not found at " ++ sp ++ "/bin/monkeyc")])
    else
      let _cmd := buildCmd (sp ++ "/bin/monkeyc") target profile manifest output
        dev_key env.jungle_exists
      let pre := [LogMsg.info ("Building " ++ target ++ " (" ++ profileValue profile ++ ")...")]
      match runCheck env.proc with
      | Except.ok _ => (true, pre ++ [LogMsg.success ("Built " ++ target ++ " successfully")])
      | Except.error e => (false, pre ++ [LogMsg.error ("Build failed: " ++ e)])

/-- The build_all sweep loop of CiqxApp.build (src/ciqx.py lines 414-428):
one compile per configured target, in order, tallying successes. The
compiler is abstracted to a stub `target → profile → succeeded` exactly as
the sweep observes it (the loop only inspects the returned boolean).
Returns the ordered list of (target, result) invocations and the final
success_count. -/
def appBuildAll (stub : String → Profile → Bool) (profile : Profile) :
    List String → List (String × Bool) × Nat
  | [] => ([], 0)
  | device :: rest =>
    let ok := stub device profile
    let r := appBuildAll stub profile rest
    ((device, ok) :: r.1, (if ok then 1 else 0) + r.2)

/-- The aggregate line CiqxApp.build logs after a sweep
(src/ciqx.py lines 430-433): success iff every target succeeded. -/
def sweepLog (stub : String → Profile → Bool) (profile : Profile)
    (targets : List String) : LogMsg :=
  let n := (appBuildAll stub profile targets).2
  if n = targets.length then
    LogMsg.success ("Built all " ++ toString n ++ " targets successfully")
  else
    LogMsg.error ("Built " ++ toString n ++ "/" ++ toString targets.length ++ " targets")

/-- The process exit status produced by the `build` CLI command
(src/ciqx.py lines 522-529): the typer command body calls ciqx.build,
which returns None after logging; no exception escapes and no exit code
is set anywhere, so the interpreter exits with status 0 regardless of
the sweep outcome. -/
def cliBuildExit (stub : String → Profile → Bool) (profile : Profile)
    (targets : List String) : Nat :=
  let _sweep := appBuildAll stub profile targets
  0

/-- A compiler stub that fails exactly for the target "venu2"
(the scenario of spec section 8). -/
def stubFailVenu2 : String → Profile → Bool :=
  fun t _ => !(t == "venu2")

/-- One filesystem modification event as ProjectWatcher.on_modified sees
it: `event.is_directory`, the value of time.time() when the handler runs
(modelled as a rational), and `event.src_path`. -/
structure FSEvent where
  is_directory : Bool
  time : Rat
  src_path : String
deriving DecidableEq, Repr

/-- ProjectWatcher.on_modified (src/ciqx.py lines 308-324). State is the
handler-local `self.last_modified` (initialised to 0 in __init__). Directory
events return early; an event within 0.5s of the last accepted event
returns early WITHOUT touching the state; otherwise `last_modified` is
set to the event time and only then is the path checked against the glob
patterns, invoking the callback on the first match. `pmatch` abstracts
the pathlib method `Path(src_path).match(pattern)`. Returns the new state and
whether the callback was invoked. -/
def on_modified (pmatch : String → String → Bool) (patterns : List String)
    (st : Rat) (e : FSEvent) : Rat × Bool :=
  if e.is_directory then (st, false)
  else if e.time - st < 1/2 then (st, false)
  else
    if patterns.any (fun p => pmatch e.src_path p) then (e.time, true)
    else (e.time, false)

/-- Deliver a time-ordered list of events to the watcher, threading its
`last_modified` state; returns the final state and the times of the
events at which the callback fired, in order. -/
def processEvents (pmatch : String → String → Bool) (patterns : List String)
    (st : Rat) : List FSEvent → Rat × List Rat
  | [] => (st, [])
  | e :: rest =>
    let step := on_modified pmatch patterns st e
    let r := processEvents pmatch patterns step.1 rest
    (r.1, (if step.2 then [e.time] else []) ++ r.2)

/-- The glob patterns CiqxApp.watch subscribes with (src/ciqx.py line 477). -/
def watchPatterns : List String :=
  ["source/**/*.mc", "resources/**/*", "manifest.xml"]

/-- Modelled from the behaviour of pathlib Path.match on the concrete
inputs used below: a wildcard-free relative pattern such as
"manifest.xml" matches exactly a path equal to it, and none of the
concrete paths used below match the wildcard patterns. -/
def litMatch (path pattern : String) : Bool := path == pattern

/-- One step observed by the output-streaming loop of CiqxApp.run
(src/ciqx.py lines 456-465): a line read from the child stdout, an
empty read while the process is still alive (skipped, loop continues),
end of stream with the process exited (loop breaks), or a
KeyboardInterrupt delivered during the iteration. -/
inductive SimEvent
  | line (s : String)
  | emptyRead
  | eof
  | interrupt
deriving DecidableEq, Repr

/-- Whether a stream step keeps the loop running (a forwarded line or a
transient empty read), as opposed to ending it. -/
def SimEvent.isStep : SimEvent → Bool
  | SimEvent.line _ => true
  | SimEvent.emptyRead => true
  | _ => false

/-- Outcome of the streaming loop: the lines forwarded to the console, in
order, and whether process.terminate() was called before returning. -/
structure StreamOutcome where
  forwarded : List String
  terminateCalled : Bool
deriving DecidableEq, Repr

/-- The while-True streaming loop with its try/except KeyboardInterrupt
(src/ciqx.py lines 456-465): lines are forwarded as they arrive; on
`eof` (readline returned an empty string and poll() is not None) the loop breaks and run
returns without terminating; on `interrupt` the except branch logs,
calls process.terminate() and returns. An exhausted trace is treated
like a break without termination. -/
def streamLoop : List SimEvent → List String → StreamOutcome
  | [], acc => ⟨acc, false⟩
  | SimEvent.line s :: rest, acc => streamLoop rest (acc ++ [s])
  | SimEvent.emptyRead :: rest, acc => streamLoop rest acc
  | SimEvent.eof :: _, acc => ⟨acc, false⟩
  | SimEvent.interrupt :: _, acc => ⟨acc, true⟩

/-- Environment facts GarminEmulator.run depends on: `self.sdk_path`
(None when discovery failed) and whether `sdk_path/bin/monkeydo` exists. -/
structure EmuEnv where
  sdk_path : Option String
  monkeydo_exists : Bool
deriving DecidableEq, Repr

/-- GarminEmulator.run (src/ciqx.py lines 223-238): raises RuntimeError
(an `Except.error`) when the SDK root is undiscovered or monkeydo is
missing; otherwise spawns the simulator process and returns its handle
(abstracted to Unit). -/
def emulatorRun (env : EmuEnv) : Except String Unit :=
  match env.sdk_path with
  | none => Except.error ("Garmin SDK not found")
  | some sp =>
    if env.monkeydo_exists = false then
      Except.error ("monkeydo not found at " ++ sp ++ "/bin/monkeydo")
    else
      Except.ok ()

/-- What a CiqxApp.run call did: whether emulator.run was invoked, whether
the "App not found" error was logged, and the streaming outcome. -/
structure RunReport where
  emulatorInvoked : Bool
  notFoundReported : Bool
  forwarded : List String
  terminateCalled : Bool
deriving DecidableEq, Repr

/-- CiqxApp.run (src/ciqx.py lines 438-465). The preceding single-target
self.build call is summarised by `artifactExists`, the state of the
output file when the existence check runs. If the artifact is absent the
method logs an error and returns without calling emulator.run; otherwise
it calls emulator.run — whose RuntimeError, being caught nowhere in
CiqxApp.run, propagates out as `Except.error` — and on success streams
the child output. -/
def ciqxRun (artifactExists : Bool) (env : EmuEnv) (trace : List SimEvent) :
    Except String RunReport :=
  if artifactExists = false then
    Except.ok ⟨false, true, [], false⟩
  else
    match emulatorRun env with
    | Except.error e => Except.error e
    | Except.ok _ =>
      let o := streamLoop trace []
      Except.ok ⟨true, false, o.forwarded, o.terminateCalled⟩

/-- Whether a finished CiqxApp.run call terminated the child process. -/
def runTerminated : Except String RunReport → Bool
  | Except.ok r => r.terminateCalled
  | Except.error _ => false

/-- A Python exception escaping a block of CiqxApp.watch: the user
KeyboardInterrupt, or a RuntimeError carrying a message. -/
inductive PyExc
  | kbInterrupt
  | runtimeError (msg : String)
deriving DecidableEq, Repr

/-- How the try-block of CiqxApp.watch (src/ciqx.py lines 482-488) ends:
if the initial self.run raised a RuntimeError it escapes (run catches
only KeyboardInterrupt); otherwise the body enters `while True:
time.sleep(1)`, which only ends when the user interrupt arrives. -/
def watchTryBlock (runRes : Except String RunReport) : Except PyExc Unit :=
  match runRes with
  | Except.error m => Except.error (PyExc.runtimeError m)
  | Except.ok _ => Except.error PyExc.kbInterrupt

/-- What CiqxApp.watch did to its Observer before returning. -/
structure WatchReport where
  observerStopped : Bool
  observerJoined : Bool
deriving DecidableEq, Repr

/-- CiqxApp.watch (src/ciqx.py lines 482-492): the except branch handles
only KeyboardInterrupt, calling observer.stop(); observer.join() — which
blocks until the notification thread has fully shut down — runs after
the try/except, so it is reached on a handled interrupt (and on normal
completion) but not when another exception escapes the try-block. -/
def ciqxWatch (runRes : Except String RunReport) : Except PyExc WatchReport :=
  match watchTryBlock runRes with
  | Except.error PyExc.kbInterrupt => Except.ok ⟨true, true⟩
  | Except.error e => Except.error e
  | Except.ok _ => Except.ok ⟨false, true⟩

/-! ## Helper lemmas -/

/-- A run of events that are each either directory events or within the
throttle window of the current `last_modified` state leaves the watcher
state unchanged and fires no callback. -/
theorem processEvents_quiet (pmatch : String → String → Bool)
    (patterns : List String) (st : Rat) (es : List FSEvent)
    (h : ∀ e ∈ es, e.is_directory = true ∨ e.time - st < 1/2) :
    processEvents pmatch patterns st es = (st, []) := by
  induction es with
  | nil => rfl
  | cons e rest ih =>
    have he := h e (List.mem_cons_self e rest)
    have hstep : on_modified pmatch patterns st e = (st, false) := by
      unfold on_modified
      cases hdir : e.is_directory with
      | true => simp
      | false =>
        have ht : e.time - st < 1/2 := by
          rcases he with hd | ht
          · rw [hdir] at hd; cases hd
          · exact ht
        rw [if_neg (by decide), if_pos ht]
    have hrest : processEvents pmatch patterns st rest = (st, []) := by
      exact ih (fun x hx => h x (List.mem_cons_of_mem e hx))
    simp [processEvents, hstep, hrest]

/-- Unfolding lemma: one delivered event steps the watcher state and
prepends its trigger (if any) to those of the remaining events. -/
theorem processEvents_cons (pmatch : String → String → Bool) (patterns : List String)
    (st : Rat) (e : FSEvent) (es : List FSEvent) :
    processEvents pmatch patterns st (e :: es)
      = ((processEvents pmatch patterns (on_modified pmatch patterns st e).1 es).1,
         (if (on_modified pmatch patterns st e).2 then [e.time] else [])
           ++ (processEvents pmatch patterns (on_modified pmatch patterns st e).1 es).2) :=
  rfl

/-- If every step before the interrupt is a line or a transient empty
read, the streaming loop ends with process.terminate() called. -/
theorem streamLoop_interrupt (pre rest : List SimEvent) (acc : List String)
    (h : ∀ e ∈ pre, SimEvent.isStep e = true) :
    (streamLoop (pre ++ SimEvent.interrupt :: rest) acc).terminateCalled = true := by
  induction pre generalizing acc with
  | nil => rfl
  | cons e pre ih =>
    have he := h e (List.mem_cons_self e pre)
    have hrest : ∀ x ∈ pre, SimEvent.isStep x = true :=
      fun x hx => h x (List.mem_cons_of_mem e hx)
    cases e with
    | line s => simpa [streamLoop] using ih (acc ++ [s]) hrest
    | emptyRead => simpa [streamLoop] using ih acc hrest
    | eof => simp [SimEvent.isStep] at he
    | interrupt => simp [SimEvent.isStep] at he

/-! ## Claims -/

/-- Claim C1: for every target sequence and profile, the build sweep of
CiqxApp.build with build_all invokes the compiler once per target, in the
order supplied, continues past failures (every target gets a result), the
reported success_count equals the number of targets for which the stub
compiler returned success, and the sweep-level success log appears iff
every target succeeded. -/
theorem c1_buildAll_sequential_counts (stub : String → Profile → Bool)
    (profile : Profile) (targets : List String) :
    (appBuildAll stub profile targets).1
      = targets.map (fun t => (t, stub t profile)) ∧
    (appBuildAll stub profile targets).1.map Prod.fst = targets ∧
    (appBuildAll stub profile targets).2
      = (targets.filter (fun t => stub t profile)).length ∧
    ((appBuildAll stub profile targets).2 = targets.length
      ↔ ∀ t ∈ targets, stub t profile = true) := by
  have hmain : (appBuildAll stub profile targets).1
      = targets.map (fun t => (t, stub t profile)) ∧
      (appBuildAll stub profile targets).2
        = (targets.filter (fun t => stub t profile)).length := by
    induction targets with
    | nil => exact ⟨rfl, rfl⟩
    | cons t rest ih =>
      constructor
      · simp [appBuildAll, ih.1]
      · rcases hok : stub t profile with _ | _
        · simp [appBuildAll, hok, ih.2, List.filter]
        · simp [appBuildAll, hok, ih.2, List.filter, Nat.add_comm]
  refine ⟨hmain.1, ?_, hmain.2, ?_⟩
  · rw [hmain.1, List.map_map]
    exact List.map_id targets
  · rw [hmain.2]
    constructor
    · intro hlen t ht
      have := List.filter_length_eq_length.mp hlen
      simpa using this t ht
    · intro hall
      apply List.filter_length_eq_length.mpr
      intro t ht
      simpa using hall t ht

/-- Claim C4: the compile argument vector is a deterministic function of
the request — when monkey.jungle exists it is the build descriptor and
the manifest path does not appear in the vector; otherwise the manifest
is used; and exactly -g is appended for the debug profile and exactly -r
for the release profile. Shown by computing the vector in all four
cases. -/
theorem c4_compile_argv (m t man out key : String) :
    buildCmd m t Profile.debug man out key true
      = [m, "-d", t, "-f", "monkey.jungle", "-o", out, "-y", key, "-g"] ∧
    buildCmd m t Profile.release man out key true
      = [m, "-d", t, "-f", "monkey.jungle", "-o", out, "-y", key, "-r"] ∧
    buildCmd m t Profile.debug man out key false
      = [m, "-f", man, "-o", out, "-d", t, "-y", key, "-g"] ∧
    buildCmd m t Profile.release man out key false
      = [m, "-f", man, "-o", out, "-d", t, "-y", key, "-r"] := by
  refine ⟨rfl, rfl, rfl, rfl⟩

/-- Claim C6 (code bug): at the spec failing scenario — targets
fenix7 and venu2 with the compiler failing on venu2 — the sweep records
one failure (success_count 1 of 2), yet the `build --all` command still
exits with process status 0: CiqxApp.build returns None and no exit code
is ever set, contradicting the claim that the exit status is non-zero
when a target fails. -/
theorem c6_exit_zero_despite_failure :
    cliBuildExit stubFailVenu2 Profile.debug ["fenix7", "venu2"] = 0 ∧
    (appBuildAll stubFailVenu2 Profile.debug ["fenix7", "venu2"]).1
      = [("fenix7", true), ("venu2", false)] ∧
    (appBuildAll stubFailVenu2 Profile.debug ["fenix7", "venu2"]).2 = 1 ∧
    sweepLog stubFailVenu2 Profile.debug ["fenix7", "venu2"]
      = LogMsg.error ("Built 1/2 targets") := by
  refine ⟨rfl, by decide, by decide, by decide⟩

/-- Claim C7: when the expected artifact file is absent, CiqxApp.run
reports the precondition failure and returns without invoking the
emulator launch routine, whatever the toolchain environment and whatever
the simulator would have emitted. -/
theorem c7_absent_artifact_no_spawn (env : EmuEnv) (trace : List SimEvent) :
    ciqxRun false env trace = Except.ok ⟨false, true, [], false⟩ := by
  rfl

/-- Claim C9: when the initial run returns normally and the user
interrupt later arrives in the idle sleep loop, CiqxApp.watch stops the
observer, joins it (waiting for the notification thread to fully shut
down), and returns cleanly — the interrupt is not propagated. -/
theorem c9_interrupt_stops_watch (r : RunReport) :
    ciqxWatch (Except.ok r) = Except.ok ⟨true, true⟩ := by
  rfl

/-- Claim C2 is false of the code: the handler is a leading-edge
throttle, not a trailing-edge debounce. In the burst of three eligible
events (non-directory, path matching the subscribed pattern
"manifest.xml") at times 1, 1.3 and 1.6 — each consecutive pair 0.3s
apart, i.e. inside the 0.5s window — the callback fires TWICE, at times
1 and 1.6: the first invocation is immediate rather than one window
after the last event, and an event inside the window does not reset the
window (it is dropped without touching last_modified). -/
theorem c2_counterexample :
    ((13 : Rat)/10 - 1 < 1/2 ∧ (16 : Rat)/10 - 13/10 < 1/2) ∧
    (∀ e ∈ [(⟨false, 1, "manifest.xml"⟩ : FSEvent),
            ⟨false, 13/10, "manifest.xml"⟩, ⟨false, 16/10, "manifest.xml"⟩],
      e.is_directory = false ∧
      watchPatterns.any (fun p => litMatch e.src_path p) = true) ∧
    (processEvents litMatch watchPatterns 0
      [⟨false, 1, "manifest.xml"⟩, ⟨false, 13/10, "manifest.xml"⟩,
       ⟨false, 16/10, "manifest.xml"⟩]).2 = [1, 16/10] := by
  norm_num [processEvents, on_modified, litMatch, watchPatterns]

/-- Claim C2 (amended): the watcher implements a leading-edge throttle.
For every burst whose first event is accepted (non-directory, at least
0.5s after the recorded watcher last_modified) and matches a pattern,
and whose remaining events all occur within 0.5s of the first, the
rebuild callback is invoked exactly once, immediately at the first
event; events inside the window are dropped and do not reset it. -/
theorem c2_amended_leading_edge (pmatch : String → String → Bool)
    (patterns : List String) (st : Rat) (e0 : FSEvent) (rest : List FSEvent)
    (hdir : e0.is_directory = false)
    (hacc : 1/2 ≤ e0.time - st)
    (hmatch : patterns.any (fun p => pmatch e0.src_path p) = true)
    (hburst : ∀ e ∈ rest, e.time - e0.time < 1/2) :
    (processEvents pmatch patterns st (e0 :: rest)).2 = [e0.time] := by
  have hstep : on_modified pmatch patterns st e0 = (e0.time, true) := by
    unfold on_modified
    rw [if_neg (by simp [hdir]), if_neg (not_lt.mpr hacc), if_pos hmatch]
  have hq := processEvents_quiet pmatch patterns e0.time rest
    (fun e he => Or.inr (hburst e he))
  simp [processEvents, hstep, hq]

/-- Witness for the amended C2: a two-event burst on "manifest.xml" at
times 1 and 1.1 fires the callback exactly once, at time 1. -/
theorem c2_amended_witness :
    (processEvents litMatch watchPatterns 0
      [⟨false, 1, "manifest.xml"⟩, ⟨false, 11/10, "manifest.xml"⟩]).2 = [1] :=
  c2_amended_leading_edge litMatch watchPatterns 0 ⟨false, 1, "manifest.xml"⟩
    [⟨false, 11/10, "manifest.xml"⟩] rfl (by norm_num) (by decide) (by norm_num)

/-- Claim C10: a non-directory event that passes the throttle check sets
last_modified to the event time whether or not its path matches any
pattern (the timestamp update precedes the pattern check), so a
pattern-matching event arriving within 0.5s of any accepted
non-directory event — matching or not — never invokes the callback: the
trigger list of the pair is determined by the first event alone. -/
theorem c10_timestamp_before_match (pmatch : String → String → Bool)
    (patterns : List String) (st : Rat) (e1 e2 : FSEvent)
    (h1 : e1.is_directory = false)
    (h2 : 1/2 ≤ e1.time - st)
    (h3 : e2.time - e1.time < 1/2) :
    (on_modified pmatch patterns st e1).1 = e1.time ∧
    (processEvents pmatch patterns st [e1, e2]).2
      = if patterns.any (fun p => pmatch e1.src_path p) then [e1.time] else [] := by
  have hstep : on_modified pmatch patterns st e1
      = (e1.time, patterns.any (fun p => pmatch e1.src_path p)) := by
    unfold on_modified
    rw [if_neg (by simp [h1]), if_neg (not_lt.mpr h2)]
    cases hm : patterns.any (fun p => pmatch e1.src_path p) with
    | true => simp
    | false => simp
  have hst1 : (on_modified pmatch patterns st e1).1 = e1.time := by rw [hstep]
  have hst2 : (on_modified pmatch patterns st e1).2
      = patterns.any (fun p => pmatch e1.src_path p) := by rw [hstep]
  have hq : processEvents pmatch patterns e1.time [e2] = (e1.time, []) := by
    apply processEvents_quiet
    intro x hx
    simp only [List.mem_singleton] at hx
    subst hx
    exact Or.inr h3
  refine ⟨hst1, ?_⟩
  rw [processEvents_cons, hst1, hst2, hq]
  simp

/-- Witness for C10: a non-matching file "notes.txt" modified at time 1
sets last_modified to 1 and fires nothing, and a matching
"manifest.xml" event 0.3s later is silently dropped. -/
theorem c10_witness :
    (on_modified litMatch watchPatterns 0 ⟨false, 1, "notes.txt"⟩).1 = 1 ∧
    (processEvents litMatch watchPatterns 0
      [⟨false, 1, "notes.txt"⟩, ⟨false, 13/10, "manifest.xml"⟩]).2
      = if watchPatterns.any (fun p => litMatch ("notes.txt") p) then [1] else [] :=
  c10_timestamp_before_match litMatch watchPatterns 0 ⟨false, 1, "notes.txt"⟩
    ⟨false, 13/10, "manifest.xml"⟩ rfl (by norm_num) (by norm_num)

/-- Claim C3: if a KeyboardInterrupt arrives while CiqxApp.run is
streaming simulator output (after any number of forwarded lines or
transient empty reads), the except branch calls process.terminate()
before the method returns, leaving no orphaned process. -/
theorem c3_interrupt_terminates (env : EmuEnv) (sp : String)
    (hsdk : env.sdk_path = some sp) (hmd : env.monkeydo_exists = true)
    (pre rest : List SimEvent) (hpre : ∀ e ∈ pre, SimEvent.isStep e = true) :
    runTerminated (ciqxRun true env (pre ++ SimEvent.interrupt :: rest)) = true := by
  have hemu : emulatorRun env = Except.ok () := by
    unfold emulatorRun
    rw [hsdk]
    simp [hmd]
  unfold ciqxRun
  rw [if_neg (by decide), hemu]
  simpa [runTerminated] using streamLoop_interrupt pre rest [] hpre

/-- Witness for C3: one line is streamed, then the interrupt arrives;
the run returns having terminated the child process. -/
theorem c3_witness :
    runTerminated (ciqxRun true ⟨some ("/sdk"), true⟩
      [SimEvent.line ("boot"), SimEvent.interrupt]) = true :=
  c3_interrupt_terminates ⟨some ("/sdk"), true⟩ ("/sdk") rfl rfl
    [SimEvent.line ("boot")] [] (by decide)

/-- Claim C5 is false as stated: the value GarminCompiler.compile
returns to its caller is a bare boolean, so it cannot carry the captured
stderr. Two failing compiles that differ only in the compiler stderr
("errA" vs "errB") return the identical value `false` to the caller,
while the diagnostic text is observable only in the logger output, which
does differ. -/
theorem c5_counterexample :
    (garminCompile ⟨some ("/sdk"), true, false, ⟨1, "errA"⟩⟩ "fenix7" Profile.debug
        "manifest.xml" "build/fenix7-debug.prg" "developer_key.der").1
      = (garminCompile ⟨some ("/sdk"), true, false, ⟨1, "errB"⟩⟩ "fenix7" Profile.debug
        "manifest.xml" "build/fenix7-debug.prg" "developer_key.der").1 ∧
    (garminCompile ⟨some ("/sdk"), true, false, ⟨1, "errA"⟩⟩ "fenix7" Profile.debug
        "manifest.xml" "build/fenix7-debug.prg" "developer_key.der").1 = false ∧
    "errA" ≠ "errB" ∧
    (garminCompile ⟨some ("/sdk"), true, false, ⟨1, "errA"⟩⟩ "fenix7" Profile.debug
        "manifest.xml" "build/fenix7-debug.prg" "developer_key.der").2
      ≠ (garminCompile ⟨some ("/sdk"), true, false, ⟨1, "errB"⟩⟩ "fenix7" Profile.debug
        "manifest.xml" "build/fenix7-debug.prg" "developer_key.der").2 := by
  decide

/-- Claim C5 (amended): a non-zero compiler exit is never propagated as
an exception — the CalledProcessError is caught and compile returns the
plain failure value `false` to its caller, reporting the captured stderr
only through the logger as a "Build failed:" error line. -/
theorem c5_amended_failure_logged (sp target manifest output dev_key : String)
    (profile : Profile) (jungle : Bool) (pr : ProcResult)
    (hfail : pr.exitCode ≠ 0) :
    garminCompile ⟨some sp, true, jungle, pr⟩ target profile manifest output dev_key
      = (false,
         [LogMsg.info ("Building " ++ target ++ " (" ++ profileValue profile ++ ")..."),
          LogMsg.error ("Build failed: " ++ pr.stderr)]) := by
  have hrc : runCheck pr = Except.error pr.stderr := by
    unfold runCheck
    rw [if_neg hfail]
  unfold garminCompile
  simp [hrc]

/-- Witness for the amended C5: a compile whose external process exits
with status 1 and stderr "errA" returns false with the failure logged. -/
theorem c5_witness :
    garminCompile ⟨some ("/sdk"), true, false, ⟨1, "errA"⟩⟩ "fenix7" Profile.debug
      "manifest.xml" "build/fenix7-debug.prg" "developer_key.der"
      = (false,
         [LogMsg.info ("Building " ++ "fenix7" ++ " (" ++ profileValue Profile.debug ++ ")..."),
          LogMsg.error ("Build failed: " ++ "errA")]) :=
  c5_amended_failure_logged ("/sdk") ("fenix7") ("manifest.xml") ("build/fenix7-debug.prg")
    ("developer_key.der") Profile.debug false ⟨1, "errA"⟩ (by decide)

/-- Claim C8 is false in its last conjunct: with the toolchain root
undiscovered, the RuntimeError raised by GarminEmulator.run escapes
CiqxApp.run — which catches only KeyboardInterrupt — and, when reached
from watch mode, escapes CiqxApp.watch too (observer.join() is never
executed), so the precondition failure does crash the orchestration
session instead of being contained by it. -/
theorem c8_counterexample :
    ciqxRun true ⟨none, true⟩ [] = Except.error ("Garmin SDK not found") ∧
    ciqxWatch (ciqxRun true ⟨none, true⟩ [])
      = Except.error (PyExc.runtimeError ("Garmin SDK not found")) :=
  ⟨rfl, rfl⟩

/-- Claim C8 (amended): a launch attempted with the toolchain root
undiscovered or monkeydo absent signals an explicit RuntimeError to its
immediate caller and never yields a process handle; but no caller
catches it, so the same error propagates out of CiqxApp.run and aborts
the orchestration operation. -/
theorem c8_amended_signal (env : EmuEnv) (trace : List SimEvent)
    (h : env.sdk_path = none ∨ env.monkeydo_exists = false) :
    ∃ msg, emulatorRun env = Except.error msg ∧
      ciqxRun true env trace = Except.error msg := by
  have hemu : ∃ msg, emulatorRun env = Except.error msg := by
    rcases hsp : env.sdk_path with _ | sp
    · exact ⟨"Garmin SDK not found", by simp [emulatorRun, hsp]⟩
    · rcases h with h1 | h2
      · rw [h1] at hsp
        exact Option.noConfusion hsp
      · exact ⟨"monkeydo not found at " ++ sp ++ "/bin/monkeydo",
          by simp [emulatorRun, hsp, h2]⟩
  obtain ⟨msg, hmsg⟩ := hemu
  refine ⟨msg, hmsg, ?_⟩
  unfold ciqxRun
  rw [if_neg (by decide), hmsg]

/-- Witness for the amended C8: with no SDK root discovered, the
emulator launch fails explicitly and the same error escapes
CiqxApp.run. -/
theorem c8_witness :
    ∃ msg, emulatorRun ⟨none, true⟩ = Except.error msg ∧
      ciqxRun true ⟨none, true⟩ [] = Except.error msg :=
  c8_amended_signal ⟨none, true⟩ [] (Or.inl rfl)

end Ciqx
